import Mathlib

/-!
Verification of the Image Specification Build Orchestrator specification
against a shallow embedding of the repository's code.

The repository's own files (`image_sepc_example.py`, `ray_job.py`,
`use_secrets.py`) are usage examples; the orchestrator itself (ImageSpec,
builder registry, `resolve_image`, SecretsManager) lives in the `flytekit`
dependency, which is not part of the repository sources.  Where a claim is
decided by that missing code, the definitions below are modelled from the
specification (doc comments starting with `Modelled from the spec:`).
-/

namespace Flyte

/-- Association-list lookup with decidable key equality (first match wins). -/
def alookup {α β : Type} [DecidableEq α] : List (α × β) → α → Option β
  | [], _ => none
  | (k, v) :: rest, a => if k = a then some v else alookup rest a

/-- A string is blank when it is empty or consists only of whitespace. -/
def blank (s : String) : Bool := s.data.all Char.isWhitespace

/-- A version component must be a nonempty run of decimal digits. -/
def versionComponentOk (p : List Char) : Bool := !p.isEmpty && p.all Char.isDigit

/-- Decimal value of a digit string. -/
def natOfDigits (p : List Char) : Nat := p.foldl (fun n c => n * 10 + (c.toNat - 48)) 0

/-- Split a character list on the dot separator. -/
def splitDots : List Char → List Char → List (List Char)
  | [], acc => [acc.reverse]
  | c :: rest, acc =>
    if c = '.' then acc.reverse :: splitDots rest [] else splitDots rest (c :: acc)

/-- Modelled from the spec: parse a language runtime version string into the
supported dotted-number form (spec 4.1), e.g. "3.9" becomes [3, 9]. -/
def parseVersion (s : String) : Option (List Nat) :=
  let parts := splitDots s.data []
  if parts.all versionComponentOk then some (parts.map natOfDigits) else none

/-- Modelled from the spec: characters legal in the registry/tag grammar
(spec section 6): lower-case letters, digits, and common path separators. -/
def regChar (c : Char) : Bool :=
  c.isLower || c.isDigit || c = '.' || c = '-' || c = '_' || c = '/'

/-- Modelled from the spec: the ImageSpec data model (spec section 3) -- the
flytekit ImageSpec implementation is not under the repository sources; only
the example constructing one is. -/
structure ImageSpec where
  packages : List String
  apt_packages : List String
  python_version : Option String
  env : List (String × String)
  registry : Option String
  base_image : Option String
  builder_id : Option String
  source_hints : List String
deriving DecidableEq, Repr

/-- Two strings are equal when their character lists are. -/
theorem strData_inj {s t : String} (h : s.data = t.data) : s = t := by
  cases s
  cases t
  exact congrArg String.mk (by simpa using h)

/-- Ordering used to sort the (unordered) env mapping: lexicographic on the
key, then on the value (compared on the underlying character lists). -/
def envLe (a b : String × String) : Prop :=
  a.1.data < b.1.data ∨ (a.1.data = b.1.data ∧ a.2.data ≤ b.2.data)

instance : DecidableRel envLe := fun a b =>
  decidable_of_iff (a.1.data < b.1.data ∨ (a.1.data = b.1.data ∧ a.2.data ≤ b.2.data))
    Iff.rfl

instance : IsTotal (String × String) envLe where
  total a b := by
    rcases lt_trichotomy a.1.data b.1.data with h | h | h
    · exact Or.inl (Or.inl h)
    · rcases le_total a.2.data b.2.data with h2 | h2
      · exact Or.inl (Or.inr ⟨h, h2⟩)
      · exact Or.inr (Or.inr ⟨h.symm, h2⟩)
    · exact Or.inr (Or.inl h)

instance : IsTrans (String × String) envLe where
  trans a b c hab hbc := by
    rcases hab with h1 | ⟨h1, h1v⟩ <;> rcases hbc with h2 | ⟨h2, h2v⟩
    · exact Or.inl (lt_trans h1 h2)
    · exact Or.inl (h2 ▸ h1)
    · exact Or.inl (h1 ▸ h2)
    · exact Or.inr ⟨h1.trans h2, le_trans h1v h2v⟩

instance : IsAntisymm (String × String) envLe where
  antisymm a b hab hba := by
    rcases hab with h1 | ⟨h1, h1v⟩
    · rcases hba with h2 | ⟨h2, h2v⟩
      · exact absurd h1 (lt_asymm h2)
      · exact absurd h1 (h2 ▸ lt_irrefl _)
    · rcases hba with h2 | ⟨h2, h2v⟩
      · exact absurd h2 (h1 ▸ lt_irrefl _)
      · exact Prod.ext (strData_inj h1) (strData_inj (le_antisymm h1v h2v))

/-- Sort the env mapping into canonical (key, value) order. -/
def sortEnv (l : List (String × String)) : List (String × String) :=
  l.insertionSort envLe

/-- Canonical (normalized) form of an ImageSpec: unordered collections are
sorted, the version string is canonicalized to its dotted-number value. -/
structure CanonicalSpec where
  packages : List String
  apt_packages : List String
  version : Option (List Nat)
  env : List (String × String)
  registry : Option String
  base_image : Option String
  builder_id : Option String
  source_hints : List String
deriving DecidableEq, Repr

/-- Modelled from the spec: normalization (spec 4.1) sorts unordered
collections (the env mapping) and canonicalizes value representations
(the version string) before hashing. -/
def normalize (s : ImageSpec) : CanonicalSpec :=
  { packages := s.packages
    apt_packages := s.apt_packages
    version := s.python_version.bind parseVersion
    env := sortEnv s.env
    registry := s.registry
    base_image := s.base_image
    builder_id := s.builder_id
    source_hints := s.source_hints }

/-- Modelled from the spec: the identity hash is a content-derived digest of
the normalized spec (spec section 3); hash collisions are treated as
cryptographically negligible there, so the digest is modelled as an
injective function of the canonical form, represented by the canonical form
itself. -/
structure Identity where
  canon : CanonicalSpec
deriving DecidableEq, Repr

/-- identity() returns the stable hash of the canonical form. -/
def ImageSpec.identity (s : ImageSpec) : Identity := ⟨normalize s⟩

/-- The example spec constructed in `image_sepc_example.py` (lines 38-42). -/
def exampleSpec : ImageSpec :=
  { packages := ["pandas", "numpy"]
    apt_packages := ["git"]
    python_version := some "3.9"
    env := [("Debug", "True")]
    registry := some "pingsutw"
    base_image := none
    builder_id := none
    source_hints := [] }

/-- The example spec with the env value flipped to "False" (spec section 8
scenario). -/
def exampleSpecDebugFalse : ImageSpec :=
  { exampleSpec with env := [("Debug", "False")] }

/-- Modelled from the spec: a BuilderRegistration (spec section 3) is a
builder identifier, a builder implementation and a priority integer.  The
implementation's cheap local capability check (`can_build`, spec 4.2 --
"I support this language runtime") is modelled first-order as the list of
language runtime versions the builder supports; its `build_and_push`
behaviour is supplied separately by the orchestrator environment. -/
structure Registration where
  id : String
  priority : Nat
  supported : List String
deriving DecidableEq, Repr

/-- The language runtime version of the host, used when the spec omits one. -/
def hostVersion : String := "3.11"

/-- Capability check of a registered builder against a spec (spec 4.2). -/
def can_build (r : Registration) (s : ImageSpec) : Bool :=
  r.supported.contains (s.python_version.getD hostVersion)

/-- Descending-priority ordering on registrations. -/
def regGe (a b : Registration) : Prop := b.priority ≤ a.priority

instance : DecidableRel regGe := fun a b =>
  decidable_of_iff (b.priority ≤ a.priority) Iff.rfl

instance : IsTotal Registration regGe where
  total a b := le_total b.priority a.priority

instance : IsTrans Registration regGe where
  trans _ _ _ hab hbc := le_trans hbc hab

/-- Registrations in descending priority order. -/
def sortRegs (regs : List Registration) : List Registration :=
  regs.insertionSort regGe

/-- Error taxonomy of the orchestrator (spec section 7). -/
inductive OrchError where
  | validation (msg : String)
  | unknownBuilder (id : String)
  | noCapableBuilder
  | registryError
  | buildError (identity : Identity) (builderId : String) (cause : String)
deriving DecidableEq, Repr

/-- Lookup of a registration by builder identifier. -/
def findById : List Registration → String → Option Registration
  | [], _ => none
  | r :: rest, bid => if r.id = bid then some r else findById rest bid

/-- Modelled from the spec: builder resolution (spec 4.3) -- a named builder
is looked up directly (UnknownBuilderError when absent); otherwise the
registrations are iterated in descending priority order and the first whose
`can_build` accepts the spec is chosen (NoCapableBuilderError when none). -/
def resolve (regs : List Registration) (s : ImageSpec) : Except OrchError Registration :=
  match s.builder_id with
  | some bid =>
    match findById regs bid with
    | some r => Except.ok r
    | none => Except.error (OrchError.unknownBuilder bid)
  | none =>
    match (sortRegs regs).find? (fun r => can_build r s) with
    | some r => Except.ok r
    | none => Except.error OrchError.noCapableBuilder

/-- The in-process BuildRecord: identity hash to resolved image reference. -/
abbrev BuildRecord := List (Identity × String)

def brLookup (rec : BuildRecord) (i : Identity) : Option String := alookup rec i

def brInsert (rec : BuildRecord) (i : Identity) (ref : String) : BuildRecord :=
  (i, ref) :: rec

/-- One hex character. -/
def hexChar (n : Nat) : Char :=
  if n < 10 then Char.ofNat (48 + n) else Char.ofNat (87 + n)

/-- Mix one character into a 64-bit rolling digest. -/
def mix (h : Nat) (c : Char) : Nat := (h * 131 + c.toNat) % (2 ^ 64)

/-- Mix a whole string (with a separator) into the digest. -/
def strDigest (h : Nat) (s : String) : Nat := s.data.foldl mix (mix h '|')

/-- Flatten a canonical spec into the strings that feed the digest. -/
def canonStrings (c : CanonicalSpec) : List String :=
  c.packages ++ c.apt_packages
    ++ (match c.version with | none => [] | some v => v.map toString)
    ++ c.env.map (fun p => p.1) ++ c.env.map (fun p => p.2)
    ++ [c.registry.getD "", c.base_image.getD "", c.builder_id.getD ""]
    ++ c.source_hints

/-- Digest (64-bit) of a canonical spec. -/
def canonDigest (c : CanonicalSpec) : Nat := (canonStrings c).foldl strDigest 7

/-- Modelled from the spec: the canonical tag derived from the identity --
a fixed-length lower-case hex digest satisfying the tag grammar
[a-z0-9] of spec section 6. -/
def tagOf (i : Identity) : String :=
  ⟨(List.range 16).map (fun k => hexChar ((canonDigest i.canon / 16 ^ k) % 16))⟩

/-- Answer of one existence check against the registry. -/
inductive RegistryAnswer where
  | found
  | missing
  | transientError
deriving DecidableEq, Repr

/-- Observable steps of one resolve_image request, used to state the
no-I/O / no-builder-invocation properties. -/
inductive Step where
  | cacheHit
  | checkAttempt (attempt : Nat) (ans : RegistryAnswer)
  | backoffDelay (d : Nat)
  | builderInvoke (builderId : String)
deriving DecidableEq, Repr

/-- Modelled from the spec: the orchestrator environment -- the registry
client (an attempt-indexed existence-check answer per reference, so
transient failures are expressible), the builder registrations, the
black-box build_and_push behaviour keyed by builder identifier, and the
process-wide defaults. -/
structure OrchEnv where
  regs : List Registration
  check : String → Nat → RegistryAnswer
  build : String → ImageSpec → String → Except String String
  defaultRegistry : String
  repository : String

/-- The fully qualified image reference registry/repository:tag. -/
def referenceOf (env : OrchEnv) (s : ImageSpec) : String :=
  (s.registry.getD env.defaultRegistry) ++ "/" ++ env.repository ++ ":"
    ++ tagOf s.identity

/-- Number of existence-check attempts (spec 4.4 step 4: a small fixed
number). -/
def maxCheckAttempts : Nat := 3

/-- Modelled from the spec: the existence check with bounded exponential
backoff (spec 4.4 step 4).  Returns the outcome together with the trace of
attempts and backoff delays. -/
def existsRetry (check : Nat → RegistryAnswer) :
    Nat → Nat → Except OrchError Bool × List Step
  | 0, _ => (Except.error OrchError.registryError, [])
  | fuel + 1, attempt =>
    match check attempt with
    | RegistryAnswer.found => (Except.ok true, [Step.checkAttempt attempt RegistryAnswer.found])
    | RegistryAnswer.missing => (Except.ok false, [Step.checkAttempt attempt RegistryAnswer.missing])
    | RegistryAnswer.transientError =>
      if fuel = 0 then
        (Except.error OrchError.registryError,
         [Step.checkAttempt attempt RegistryAnswer.transientError])
      else
        let r := existsRetry check fuel (attempt + 1)
        (r.1, Step.checkAttempt attempt RegistryAnswer.transientError
          :: Step.backoffDelay (2 ^ attempt) :: r.2)

/-- Modelled from the spec: the core state machine of the Build Orchestrator
(spec 4.4): BuildRecord hit, else existence check (with retries), else
builder resolution and build_and_push; successes are recorded, failures
leave the record untouched.  Returns the outcome, the updated BuildRecord
and the trace of observable steps. -/
def resolve_image (env : OrchEnv) (rec : BuildRecord) (s : ImageSpec) :
    Except OrchError String × BuildRecord × List Step :=
  match brLookup rec s.identity with
  | some ref => (Except.ok ref, rec, [Step.cacheHit])
  | none =>
    match existsRetry (env.check (referenceOf env s)) maxCheckAttempts 0 with
    | (Except.error e, tr) => (Except.error e, rec, tr)
    | (Except.ok true, tr) =>
      (Except.ok (referenceOf env s), brInsert rec s.identity (referenceOf env s), tr)
    | (Except.ok false, tr) =>
      match resolve env.regs s with
      | Except.error e => (Except.error e, rec, tr)
      | Except.ok reg =>
        match env.build reg.id s (tagOf s.identity) with
        | Except.error cause =>
          (Except.error (OrchError.buildError s.identity reg.id cause), rec,
           tr ++ [Step.builderInvoke reg.id])
        | Except.ok builtRef =>
          (Except.ok builtRef, brInsert rec s.identity builtRef,
           tr ++ [Step.builderInvoke reg.id])

/-- Validation failure at ImageSpec construction time (spec 4.1). -/
structure ValidationError where
  msg : String
deriving DecidableEq, Repr

/-- True when the optional version string parses to the supported
dotted-number form. -/
def versionOk : Option String → Bool
  | none => true
  | some v => (parseVersion v).isSome

/-- True when the optional registry field uses only legal characters. -/
def registryOk : Option String → Bool
  | none => true
  | some r => r.data.all regChar

/-- True when the mount/registry fields use only characters legal in the
registry/tag grammar. -/
def fieldsOk (reg : Option String) (hints : List String) : Bool :=
  registryOk reg && hints.all (fun h => h.data.all regChar)

/-- Modelled from the spec: ImageSpec construction (spec 4.1) -- fails with
a ValidationError exactly when the packages list contains an empty or
whitespace-only entry, the version string is not parseable, or the
mount/registry fields contain illegal characters; a pure function, so no
side effects occur at construction time. -/
def mkImageSpec (ps apt : List String) (pv : Option String)
    (env : List (String × String)) (reg base bid : Option String)
    (hints : List String) : Except ValidationError ImageSpec :=
  if ps.any blank then Except.error ⟨"blank package entry"⟩
  else if !versionOk pv then Except.error ⟨"unparseable version"⟩
  else if !fieldsOk reg hints then Except.error ⟨"illegal character"⟩
  else Except.ok
    { packages := ps, apt_packages := apt, python_version := pv, env := env
      registry := reg, base_image := base, builder_id := bid, source_hints := hints }

/-- Scenario registrations of spec section 8: priorities 10, 5 and 1 where
only the priority-5 builder can build the example spec (runtime "3.9"). -/
def reg10 : Registration := { id := "builderA", priority := 10, supported := [] }

def reg5 : Registration := { id := "builderB", priority := 5, supported := ["3.9"] }

def reg1 : Registration := { id := "builderC", priority := 1, supported := [] }

def scenarioRegs : List Registration := [reg10, reg5, reg1]

/-- Outcome of a coalesced build, shared by all waiting callers. -/
inductive Outcome where
  | ok (ref : String)
  | fail (cause : String)
deriving DecidableEq, Repr

/-- Events of the concurrent orchestrator: a caller's request arriving for
an identity, and an in-flight build for an identity completing. -/
inductive BuildEvent where
  | arrive (c : Nat) (i : Identity)
  | complete (i : Identity) (o : Outcome)

/-- State of the concurrent orchestrator: the BuildRecord, the per-identity
in-flight build with its waiting callers, and each caller's outcome. -/
structure CoState where
  record : List (Identity × String)
  inflight : List (Identity × List Nat)
  results : List (Nat × Outcome)

/-- Replace the waiter list stored for an identity. -/
def setInflight (l : List (Identity × List Nat)) (i : Identity) (cs : List Nat) :
    List (Identity × List Nat) :=
  match l with
  | [] => []
  | (k, ws) :: rest => if k = i then (k, cs) :: rest else (k, ws) :: setInflight rest i cs

/-- Modelled from the spec: one transition of the concurrent orchestrator
(spec 4.4 concurrency semantics and section 9): an arriving caller hits the
record, joins the in-flight build for its identity, or starts a new build
(the returned list names the identities whose build was started); a
completing build hands the one shared outcome to every waiting caller,
records it on success, and removes the in-flight entry. -/
def costep (st : CoState) (e : BuildEvent) : CoState × List Identity :=
  match e with
  | BuildEvent.arrive c i =>
    match alookup st.record i with
    | some ref => ({ st with results := (c, Outcome.ok ref) :: st.results }, [])
    | none =>
      match alookup st.inflight i with
      | some ws => ({ st with inflight := setInflight st.inflight i (c :: ws) }, [])
      | none => ({ st with inflight := (i, [c]) :: st.inflight }, [i])
  | BuildEvent.complete i o =>
    match alookup st.inflight i with
    | none => (st, [])
    | some ws =>
      ({ record := match o with
           | Outcome.ok ref => (i, ref) :: st.record
           | Outcome.fail _ => st.record
         inflight := st.inflight.filter (fun p => p.1 ≠ i)
         results := ws.map (fun c => (c, o)) ++ st.results }, [])

/-- Run the concurrent orchestrator over a list of events, accumulating the
identities whose build was started. -/
def corun (st : CoState) : List BuildEvent → CoState × List Identity
  | [] => (st, [])
  | e :: es =>
    let p := costep st e
    let q := corun p.1 es
    (q.1, p.2 ++ q.2)

/-- The run in which N callers for one identity all arrive while no build
for it has completed, and then the single in-flight build completes. -/
def coalescingRun (i : Identity) (o : Outcome) (cs : List Nat) :
    CoState × List Identity :=
  corun ⟨[], [], []⟩
    (cs.map (fun c => BuildEvent.arrive c i) ++ [BuildEvent.complete i o])

/-- Spec with a two-entry env mapping, for the reordering witness. -/
def exampleSpecTwoEnv : ImageSpec :=
  { exampleSpec with env := [("A", "1"), ("Debug", "True")] }

/-- Witness environment whose registry always reports the tagged image
present. -/
def envFound : OrchEnv :=
  { regs := scenarioRegs
    check := fun _ _ => RegistryAnswer.found
    build := fun _ _ _ => Except.ok "built"
    defaultRegistry := "ghcr.io/flyteorg"
    repository := "flytekit" }

/-- Witness environment with a confirmed registry miss and a builder whose
toolchain fails. -/
def envMissingFailBuild : OrchEnv :=
  { regs := scenarioRegs
    check := fun _ _ => RegistryAnswer.missing
    build := fun _ _ _ => Except.error "toolchain failure"
    defaultRegistry := "ghcr.io/flyteorg"
    repository := "flytekit" }

/-- Witness environment whose registry transport always fails transiently. -/
def envTransient : OrchEnv :=
  { regs := scenarioRegs
    check := fun _ _ => RegistryAnswer.transientError
    build := fun _ _ _ => Except.ok "built"
    defaultRegistry := "ghcr.io/flyteorg"
    repository := "flytekit" }

end Flyte

namespace RayExample

/-- The remote function of `ray_job.py`: f squares its argument. -/
def f (x : Int) : Int := x * x

/-- Task `ray_task` of `ray_job.py`: `ray.remote` / `ray.get` are modelled as
direct function application, so the task returns [f 0, ..., f 4]. -/
def ray_task : List Int := (List.range 5).map (fun i => f (Int.ofNat i))

/-- The workflow of `ray_job.py` returns the task's result. -/
def wf : List Int := ray_task

end RayExample

namespace Secrets

def SECRET_NAME : String := "user_secret"

def SECRET_GROUP : String := "user-info"

def USERNAME_SECRET : String := "username"

def PASSWORD_SECRET : String := "password"

/-- Modelled from the spec: the environment-variable name under which the
testing SecretsManager of flytekit (not under the repository sources; used
by `use_secrets.py`) exposes a secret: an upper-cased name derived from the
fixed env prefix, the group and the key. -/
def get_secrets_env_var (group key : String) : String :=
  ⟨("_FSEC_" ++ group ++ "_" ++ key).data.map Char.toUpper⟩

/-- Modelled from the spec: the file path under which the SecretsManager
would mount a secret of a group and key. -/
def get_secrets_file (group key : String) : String :=
  "/etc/secrets" ++ "/" ++ (⟨group.data.map Char.toLower⟩ : String)
    ++ "/" ++ (⟨key.data.map Char.toLower⟩ : String)

/-- Modelled from the spec: `secrets.get(group, key)` inside a task reads
the environment variable named by `get_secrets_env_var`; an absent secret
is an error. -/
def getSecret (environ : List (String × String)) (group key : String) :
    Except String String :=
  match Flyte.alookup environ (get_secrets_env_var group key) with
  | some v => Except.ok v
  | none => Except.error "secret not found"

/-- Export one secret into the process environment (os.environ assignment;
the newest binding shadows older ones). -/
def setEnv (environ : List (String × String)) (k v : String) :
    List (String × String) :=
  (k, v) :: environ

/-- Task `secret_task` of `use_secrets.py`. -/
def secret_task (environ : List (String × String)) : Except String String :=
  getSecret environ SECRET_GROUP SECRET_NAME

/-- Task `user_info_task` of `use_secrets.py`. -/
def user_info_task (environ : List (String × String)) :
    Except String (String × String) := do
  let u ← getSecret environ SECRET_GROUP USERNAME_SECRET
  let p ← getSecret environ SECRET_GROUP PASSWORD_SECRET
  pure (u, p)

/-- Task `secret_file_task` of `use_secrets.py`: returns the secret's file path
and its value. -/
def secret_file_task (environ : List (String × String)) :
    Except String (String × String) := do
  let v ← getSecret environ SECRET_GROUP SECRET_NAME
  pure (get_secrets_file SECRET_GROUP SECRET_NAME, v)

/-- Workflow `my_secret_workflow` of `use_secrets.py`. -/
def my_secret_workflow (environ : List (String × String)) :
    Except String (String × String × String × String × String) := do
  let x ← secret_task environ
  let yz ← user_info_task environ
  let fs ← secret_file_task environ
  pure (x, yz.1, yz.2, fs.1, fs.2)

/-- The environment exported by the `__main__` block of `use_secrets.py`. -/
def mainEnviron : List (String × String) :=
  setEnv
    (setEnv
      (setEnv [] (get_secrets_env_var SECRET_GROUP SECRET_NAME) "value")
      (get_secrets_env_var SECRET_GROUP USERNAME_SECRET) "username_value")
    (get_secrets_env_var SECRET_GROUP PASSWORD_SECRET) "password_value"

end Secrets

namespace Flyte

theorem sortEnv_eq_of_perm {l1 l2 : List (String × String)} (h : l1.Perm l2) :
    sortEnv l1 = sortEnv l2 :=
  List.eq_of_perm_of_sorted
    ((List.perm_insertionSort envLe l1).trans
      (h.trans (List.perm_insertionSort envLe l2).symm))
    (List.sorted_insertionSort envLe l1) (List.sorted_insertionSort envLe l2)

/-- C1: identity is deterministic over normalization -- two ImageSpecs with
equal normalized attribute values have equal identity hashes (identity
factors through normalize), and in particular reordering the unordered env
mapping never changes the identity. -/
theorem identity_deterministic :
    (∀ s1 s2 : ImageSpec, normalize s1 = normalize s2 →
       ImageSpec.identity s1 = ImageSpec.identity s2) ∧
    (∀ (s : ImageSpec) (env2 : List (String × String)), env2.Perm s.env →
       ImageSpec.identity { s with env := env2 } = ImageSpec.identity s) := by
  constructor
  · intro s1 s2 h
    simp [ImageSpec.identity, h]
  · intro s env2 hp
    simp [ImageSpec.identity, normalize, sortEnv_eq_of_perm hp]

theorem identity_deterministic_witness :
    ImageSpec.identity { exampleSpecTwoEnv with env := [("Debug", "True"), ("A", "1")] }
      = ImageSpec.identity exampleSpecTwoEnv :=
  identity_deterministic.2 exampleSpecTwoEnv [("Debug", "True"), ("A", "1")]
    (List.Perm.swap ("A", "1") ("Debug", "True") [])

/-- C4: collision avoidance -- specs that differ in any normalized semantic
attribute have distinct identities; in particular the env value flip
Debug=True versus Debug=False yields distinct identities and independent
BuildRecord cache entries. -/
theorem identity_collision_avoidance :
    (∀ s1 s2 : ImageSpec, normalize s1 ≠ normalize s2 →
       ImageSpec.identity s1 ≠ ImageSpec.identity s2) ∧
    ImageSpec.identity exampleSpec ≠ ImageSpec.identity exampleSpecDebugFalse ∧
    (∀ (rec : BuildRecord) (ref : String),
       brLookup (brInsert rec (ImageSpec.identity exampleSpec) ref)
           (ImageSpec.identity exampleSpecDebugFalse)
         = brLookup rec (ImageSpec.identity exampleSpecDebugFalse)) := by
  have hne : ImageSpec.identity exampleSpec ≠ ImageSpec.identity exampleSpecDebugFalse := by
    decide
  refine ⟨?_, hne, ?_⟩
  · intro s1 s2 h hid
    exact h (congrArg Identity.canon hid)
  · intro rec ref
    simp [brLookup, brInsert, alookup, hne]

theorem identity_collision_avoidance_witness :
    ImageSpec.identity exampleSpecTwoEnv ≠ ImageSpec.identity exampleSpecDebugFalse :=
  identity_collision_avoidance.1 exampleSpecTwoEnv exampleSpecDebugFalse (by decide)

end Flyte

namespace Flyte

/-- C8: ImageSpec construction fails with a ValidationError exactly when the
packages list has an empty or whitespace-only entry, the version string is
not parseable to the supported dotted-number form, or the mount/registry
fields contain characters illegal in the registry/tag grammar; construction
is a pure function (no side effects), and the example spec of
image_sepc_example.py constructs successfully. -/
theorem construction_validation :
    (∀ (ps apt : List String) (pv : Option String) (env : List (String × String))
       (reg base bid : Option String) (hints : List String),
       (∃ e, mkImageSpec ps apt pv env reg base bid hints = Except.error e) ↔
         (ps.any blank || !versionOk pv || !fieldsOk reg hints) = true) ∧
    mkImageSpec ["pandas", "numpy"] ["git"] (some "3.9") [("Debug", "True")]
        (some "pingsutw") none none []
      = Except.ok exampleSpec := by
  constructor
  · intro ps apt pv env reg base bid hints
    by_cases h1 : ps.any blank = true <;> by_cases h2 : versionOk pv = true <;>
      by_cases h3 : fieldsOk reg hints = true <;>
      simp [mkImageSpec, h1, h2, h3]
  · rfl

theorem construction_validation_witness :
    ∃ e, mkImageSpec [" "] [] none [] none none none [] = Except.error e :=
  (construction_validation.1 [" "] [] none [] none none none []).mpr (by decide)

end Flyte

namespace Flyte

/-- In a list sorted by descending priority, the first capable registration
is capable, and every strictly higher-priority registration is incapable. -/
theorem find_capable_sorted (s : ImageSpec) :
    ∀ (l : List Registration) (r : Registration), l.Sorted regGe →
      l.find? (fun x => can_build x s) = some r →
      can_build r s = true ∧
        ∀ x ∈ l, r.priority < x.priority → can_build x s = false := by
  intro l
  induction l with
  | nil => intro r _ h; simp at h
  | cons a t ih =>
    intro r hs hf
    rcases List.sorted_cons.1 hs with ⟨ha, ht⟩
    cases hp : can_build a s with
    | true =>
      simp only [List.find?_cons, hp] at hf
      cases hf
      refine ⟨hp, ?_⟩
      intro x hx hlt
      rcases List.mem_cons.1 hx with rfl | hx
      · exact absurd hlt (lt_irrefl _)
      · exact absurd hlt (not_lt.2 (ha x hx))
    | false =>
      simp only [List.find?_cons, hp] at hf
      rcases ih r ht hf with ⟨h1, h2⟩
      refine ⟨h1, ?_⟩
      intro x hx hlt
      rcases List.mem_cons.1 hx with rfl | hx
      · exact hp
      · exact h2 x hx hlt

/-- Two sorted permutations of each other with pairwise-distinct priorities
are equal (regGe is antisymmetric on such lists). -/
theorem sorted_perm_eq_of_nodup :
    ∀ (l1 l2 : List Registration), l1.Perm l2 → l1.Sorted regGe → l2.Sorted regGe →
      (l1.map Registration.priority).Nodup → l1 = l2 := by
  intro l1
  induction l1 with
  | nil =>
    intro l2 hp _ _ _
    exact (hp.symm.eq_nil).symm
  | cons a t1 ih =>
    intro l2 hp hs1 hs2 hnd
    cases l2 with
    | nil => exact absurd hp.eq_nil (by simp)
    | cons b t2 =>
      have hal2 : a ∈ b :: t2 := hp.mem_iff.1 (List.mem_cons_self a t1)
      have hab : a = b := by
        rcases List.mem_cons.1 hal2 with h | h
        · exact h
        · have hba : b ∈ a :: t1 := hp.symm.mem_iff.1 (List.mem_cons_self b t2)
          rcases List.mem_cons.1 hba with h2 | h2
          · exact h2.symm
          · have h3 : a.priority ≤ b.priority := List.rel_of_sorted_cons hs2 a h
            have h4 : b.priority ≤ a.priority := List.rel_of_sorted_cons hs1 b h2
            have h5 : b.priority = a.priority := le_antisymm h4 h3
            have h6 : (∀ x ∈ t1, ¬x.priority = a.priority) ∧
                (t1.map Registration.priority).Nodup := by simpa using hnd
            exact absurd h5 (h6.1 b h2)
      subst hab
      have hperm : t1.Perm t2 := hp.cons_inv
      have h6 : (∀ x ∈ t1, ¬x.priority = a.priority) ∧
          (t1.map Registration.priority).Nodup := by simpa using hnd
      have ht := ih t2 hperm (List.sorted_cons.1 hs1).2 (List.sorted_cons.1 hs2).2 h6.2
      rw [ht]

/-- Every registration order of the spec scenario sorts to the descending
priority order [reg10, reg5, reg1]. -/
theorem sortRegs_scenario {l : List Registration} (hp : l.Perm scenarioRegs) :
    sortRegs l = scenarioRegs := by
  have hperm : (sortRegs l).Perm scenarioRegs :=
    (List.perm_insertionSort regGe l).trans hp
  have hsorted : (sortRegs l).Sorted regGe := List.sorted_insertionSort regGe l
  have hnd : ((sortRegs l).map Registration.priority).Nodup := by
    have hmp : ((sortRegs l).map Registration.priority).Perm
        (scenarioRegs.map Registration.priority) := hperm.map Registration.priority
    exact hmp.nodup_iff.2 (by decide)
  exact sorted_perm_eq_of_nodup (sortRegs l) scenarioRegs hperm hsorted (by decide) hnd

/-- C6: builder resolution -- a named builder is looked up directly and its
absence is UnknownBuilderError; otherwise the first capable builder in
descending priority order is chosen (no strictly higher-priority builder is
capable), absence of any capable builder is NoCapableBuilderError, and in
the priorities [10, 5, 1] scenario where only the priority-5 builder can
build the spec, every registration order resolves to the priority-5
builder. -/
theorem builder_resolution :
    (∀ (regs : List Registration) (s : ImageSpec) (bid : String),
       s.builder_id = some bid → findById regs bid = none →
       resolve regs s = Except.error (OrchError.unknownBuilder bid)) ∧
    (∀ (regs : List Registration) (s : ImageSpec) (bid : String) (r : Registration),
       s.builder_id = some bid → findById regs bid = some r →
       resolve regs s = Except.ok r) ∧
    (∀ (regs : List Registration) (s : ImageSpec) (r : Registration),
       s.builder_id = none → resolve regs s = Except.ok r →
       can_build r s = true ∧
         ∀ x ∈ regs, r.priority < x.priority → can_build x s = false) ∧
    (∀ (regs : List Registration) (s : ImageSpec),
       s.builder_id = none → (∀ x ∈ regs, can_build x s = false) →
       resolve regs s = Except.error OrchError.noCapableBuilder) ∧
    (∀ l : List Registration, l.Perm scenarioRegs →
       resolve l exampleSpec = Except.ok reg5) := by
  refine ⟨?_, ?_, ?_, ?_, ?_⟩
  · intro regs s bid h1 h2
    simp [resolve, h1, h2]
  · intro regs s bid r h1 h2
    simp [resolve, h1, h2]
  · intro regs s r h0 hr
    rw [resolve, h0] at hr
    cases hf : (sortRegs regs).find? (fun x => can_build x s) with
    | none => rw [hf] at hr; exact absurd hr (by simp)
    | some r2 =>
      rw [hf] at hr
      cases hr
      rcases find_capable_sorted s (sortRegs regs) r
          (List.sorted_insertionSort regGe regs) hf with ⟨h1, h2⟩
      refine ⟨h1, ?_⟩
      intro x hx hlt
      exact h2 x ((List.mem_insertionSort regGe).2 hx) hlt
  · intro regs s h0 hnone
    have hf : (sortRegs regs).find? (fun x => can_build x s) = none := by
      rw [List.find?_eq_none]
      intro x hx
      simp [hnone x ((List.mem_insertionSort regGe).1 hx)]
    simp [resolve, h0, hf]
  · intro l hp
    have hb : resolve l exampleSpec
        = match (sortRegs l).find? (fun r => can_build r exampleSpec) with
          | some r => Except.ok r
          | none => Except.error OrchError.noCapableBuilder := rfl
    rw [hb, sortRegs_scenario hp]
    rfl

theorem builder_resolution_witness :
    resolve [reg1, reg10, reg5] exampleSpec = Except.ok reg5 :=
  builder_resolution.2.2.2.2 [reg1, reg10, reg5] (by decide)

end Flyte

namespace Flyte

/-- C2: cache idempotence -- a BuildRecord hit returns the recorded
reference immediately with no I/O (the trace is exactly the cache-hit
step); and when the target registry already contains the tagged image, a
second resolve_image call is a pure cache hit, so no builder is invoked on
the second call. -/
theorem cache_idempotence :
    (∀ (env : OrchEnv) (rec : BuildRecord) (s : ImageSpec) (ref : String),
       brLookup rec s.identity = some ref →
       resolve_image env rec s = (Except.ok ref, rec, [Step.cacheHit])) ∧
    (∀ (env : OrchEnv) (rec : BuildRecord) (s : ImageSpec),
       (∀ n, env.check (referenceOf env s) n = RegistryAnswer.found) →
       (resolve_image env (resolve_image env rec s).2.1 s).2.2 = [Step.cacheHit]) := by
  constructor
  · intro env rec s ref h
    simp [resolve_image, h]
  · intro env rec s hfound
    cases h : brLookup rec s.identity with
    | some ref =>
      have h1 : resolve_image env rec s = (Except.ok ref, rec, [Step.cacheHit]) := by
        simp [resolve_image, h]
      rw [h1]
      simp [resolve_image, h]
    | none =>
      have hret : existsRetry (env.check (referenceOf env s)) maxCheckAttempts 0
          = (Except.ok true, [Step.checkAttempt 0 RegistryAnswer.found]) := by
        simp [maxCheckAttempts, existsRetry, hfound 0]
      have h1 : resolve_image env rec s
          = (Except.ok (referenceOf env s),
             brInsert rec s.identity (referenceOf env s),
             [Step.checkAttempt 0 RegistryAnswer.found]) := by
        simp [resolve_image, h, hret]
      rw [h1]
      have h2 : brLookup (brInsert rec s.identity (referenceOf env s)) s.identity
          = some (referenceOf env s) := by
        simp [brLookup, brInsert, alookup]
      simp [resolve_image, h2]

theorem cache_idempotence_witness :
    resolve_image envFound [(ImageSpec.identity exampleSpec, "cached")] exampleSpec
        = (Except.ok "cached", [(ImageSpec.identity exampleSpec, "cached")],
           [Step.cacheHit]) ∧
    (resolve_image envFound (resolve_image envFound [] exampleSpec).2.1 exampleSpec).2.2
        = [Step.cacheHit] :=
  ⟨cache_idempotence.1 envFound [(ImageSpec.identity exampleSpec, "cached")]
      exampleSpec "cached" (by simp [brLookup, alookup]),
   cache_idempotence.2 envFound [] exampleSpec (fun _ => rfl)⟩

/-- C5: failed-build atomicity -- when the record is cold, the registry
reports a confirmed miss and the resolved builder's build_and_push fails,
resolve_image fails with a BuildError carrying the spec identity and the
builder identifier, and the BuildRecord keeps no entry for that identity. -/
theorem failed_build_atomicity :
    ∀ (env : OrchEnv) (rec : BuildRecord) (s : ImageSpec) (reg : Registration)
      (cause : String),
      brLookup rec s.identity = none →
      env.check (referenceOf env s) 0 = RegistryAnswer.missing →
      resolve env.regs s = Except.ok reg →
      env.build reg.id s (tagOf s.identity) = Except.error cause →
      resolve_image env rec s
          = (Except.error (OrchError.buildError s.identity reg.id cause), rec,
             [Step.checkAttempt 0 RegistryAnswer.missing, Step.builderInvoke reg.id]) ∧
        brLookup (resolve_image env rec s).2.1 s.identity = none := by
  intro env rec s reg cause h0 hc hr hb
  have hret : existsRetry (env.check (referenceOf env s)) maxCheckAttempts 0
      = (Except.ok false, [Step.checkAttempt 0 RegistryAnswer.missing]) := by
    simp [maxCheckAttempts, existsRetry, hc]
  have hmain : resolve_image env rec s
      = (Except.error (OrchError.buildError s.identity reg.id cause), rec,
         [Step.checkAttempt 0 RegistryAnswer.missing, Step.builderInvoke reg.id]) := by
    simp [resolve_image, h0, hret, hr, hb]
  exact ⟨hmain, by rw [hmain]; exact h0⟩

theorem failed_build_atomicity_witness :
    (resolve_image envMissingFailBuild [] exampleSpec
        = (Except.error (OrchError.buildError (ImageSpec.identity exampleSpec)
             "builderB" "toolchain failure"), [],
           [Step.checkAttempt 0 RegistryAnswer.missing, Step.builderInvoke "builderB"]) ∧
      brLookup (resolve_image envMissingFailBuild [] exampleSpec).2.1
          (ImageSpec.identity exampleSpec) = none) :=
  failed_build_atomicity envMissingFailBuild [] exampleSpec reg5 "toolchain failure"
    rfl rfl (by rfl) rfl

/-- C7: existence-check error handling -- when every attempt fails with a
transient transport error, the orchestrator performs exactly
maxCheckAttempts attempts with exponential backoff delays in between,
surfaces RegistryError, and never invokes a builder (the trace contains no
builder invocation). -/
theorem existence_check_retries :
    ∀ (env : OrchEnv) (rec : BuildRecord) (s : ImageSpec),
      brLookup rec s.identity = none →
      (∀ n, env.check (referenceOf env s) n = RegistryAnswer.transientError) →
      resolve_image env rec s
          = (Except.error OrchError.registryError, rec,
             [Step.checkAttempt 0 RegistryAnswer.transientError, Step.backoffDelay 1,
              Step.checkAttempt 1 RegistryAnswer.transientError, Step.backoffDelay 2,
              Step.checkAttempt 2 RegistryAnswer.transientError]) := by
  intro env rec s h0 htrans
  have hret : existsRetry (env.check (referenceOf env s)) maxCheckAttempts 0
      = (Except.error OrchError.registryError,
         [Step.checkAttempt 0 RegistryAnswer.transientError, Step.backoffDelay 1,
          Step.checkAttempt 1 RegistryAnswer.transientError, Step.backoffDelay 2,
          Step.checkAttempt 2 RegistryAnswer.transientError]) := by
    simp [maxCheckAttempts, existsRetry, htrans 0, htrans 1, htrans 2]
  simp [resolve_image, h0, hret]

theorem existence_check_retries_witness :
    resolve_image envTransient [] exampleSpec
        = (Except.error OrchError.registryError, [],
           [Step.checkAttempt 0 RegistryAnswer.transientError, Step.backoffDelay 1,
            Step.checkAttempt 1 RegistryAnswer.transientError, Step.backoffDelay 2,
            Step.checkAttempt 2 RegistryAnswer.transientError]) :=
  existence_check_retries envTransient [] exampleSpec rfl (fun _ => rfl)

end Flyte

namespace Flyte

theorem corun_append (st : CoState) (xs ys : List BuildEvent) :
    corun st (xs ++ ys)
      = ((corun (corun st xs).1 ys).1,
         (corun st xs).2 ++ (corun (corun st xs).1 ys).2) := by
  induction xs generalizing st with
  | nil => simp [corun]
  | cons e es ih => simp [corun, ih, List.append_assoc]

/-- While a build for an identity is in flight, further arrivals for it only
join the waiting list: no build starts and no other state changes. -/
theorem corun_arrivals (i : Identity) :
    ∀ (cs ws : List Nat) (rs : List (Nat × Outcome)),
      corun ⟨[], [(i, ws)], rs⟩ (cs.map (fun c => BuildEvent.arrive c i))
        = (⟨[], [(i, cs.reverse ++ ws)], rs⟩, []) := by
  intro cs
  induction cs with
  | nil => intro ws rs; simp [corun]
  | cons c cs ih =>
    intro ws rs
    simp [corun, costep, alookup, setInflight, ih (c :: ws) rs]

theorem alookup_map_const {l : List Nat} {c : Nat} (o : Outcome) (h : c ∈ l) :
    alookup (l.map (fun x => (x, o))) c = some o := by
  induction l with
  | nil => cases h
  | cons a t ih =>
    rcases List.mem_cons.1 h with rfl | h
    · simp [alookup]
    · by_cases hac : a = c
      · simp [alookup, hac]
      · simp [alookup, hac, ih h]

/-- C3: per-identity build coalescing -- when N callers with the same
identity all arrive before the build completes, exactly one build is
started for that identity (at most one in flight, build_and_push invoked
exactly once), and on completion every caller receives the same shared
outcome. -/
theorem build_coalescing :
    ∀ (i : Identity) (o : Outcome) (cs : List Nat), cs ≠ [] →
      (coalescingRun i o cs).2 = [i] ∧
      ∀ c ∈ cs, alookup (coalescingRun i o cs).1.results c = some o := by
  intro i o cs hne
  cases cs with
  | nil => exact absurd rfl hne
  | cons c0 rest =>
    have h1 : costep ⟨[], [], []⟩ (BuildEvent.arrive c0 i) = (⟨[], [(i, [c0])], []⟩, [i]) := by
      simp [costep, alookup]
    have hrun : coalescingRun i o (c0 :: rest)
        = ((corun ⟨[], [(i, rest.reverse ++ [c0])], []⟩ [BuildEvent.complete i o]).1,
           [i] ++ (corun ⟨[], [(i, rest.reverse ++ [c0])], []⟩ [BuildEvent.complete i o]).2) := by
      simp only [coalescingRun, List.map_cons, List.cons_append, corun, h1,
        List.append_eq]
      rw [corun_append, corun_arrivals i rest [c0] []]
      simp [corun]
    have hres : (coalescingRun i o (c0 :: rest)).1.results
        = (rest.reverse ++ [c0]).map (fun c => (c, o)) := by
      rw [hrun]
      simp [corun, costep, alookup]
    constructor
    · rw [hrun]
      simp [corun, costep, alookup]
    · intro c hc
      rw [hres]
      apply alookup_map_const
      rcases List.mem_cons.1 hc with rfl | hc
      · simp
      · simp [List.mem_reverse, hc]

theorem build_coalescing_witness :
    (coalescingRun (ImageSpec.identity exampleSpec) (Outcome.ok "ref") [0, 1, 2]).2
        = [ImageSpec.identity exampleSpec] ∧
    alookup (coalescingRun (ImageSpec.identity exampleSpec)
        (Outcome.ok "ref") [0, 1, 2]).1.results 1
      = some (Outcome.ok "ref") :=
  ⟨(build_coalescing (ImageSpec.identity exampleSpec) (Outcome.ok "ref") [0, 1, 2]
      (by decide)).1,
   (build_coalescing (ImageSpec.identity exampleSpec) (Outcome.ok "ref") [0, 1, 2]
      (by decide)).2 1 (by decide)⟩

end Flyte

/-- C9: in the ray example the remote function squares its argument, so the
workflow returns the squares of 0 through 4 in increasing order -- a list
of exactly 5 integers. -/
theorem ray_example_result :
    RayExample.wf = [0, 1, 4, 9, 16] ∧ RayExample.wf.length = 5 := by
  constructor
  · rfl
  · rfl

/-- C10: secrets environment round trip -- setting the environment variable
named by get_secrets_env_var(g, k) to v makes secrets.get(g, k) return v;
with the three example secrets exported, my_secret_workflow returns exactly
the exported values and the file path returned equals
get_secrets_file(group, key). -/
theorem secrets_round_trip :
    (∀ (environ : List (String × String)) (g k v : String),
       Secrets.getSecret
           (Secrets.setEnv environ (Secrets.get_secrets_env_var g k) v) g k
         = Except.ok v) ∧
    Secrets.my_secret_workflow Secrets.mainEnviron
      = Except.ok ("value", "username_value", "password_value",
          Secrets.get_secrets_file Secrets.SECRET_GROUP Secrets.SECRET_NAME,
          "value") := by
  constructor
  · intro environ g k v
    simp [Secrets.getSecret, Secrets.setEnv, Flyte.alookup]
  · rfl
